import Mathlib

/-!
A shallow embedding of the DoItNow auth API (Express routes in
`auth-api/routes/auth.js` as reproduced in `auth-api/SETUP.md`, the
validation middleware in `middleware/validation.js`, and the utility module
`utils/auth.js`).  HTTP handlers become pure functions from a request and a
store state to a response and a new store state; the Prisma store becomes a
list of user rows plus an auto-increment counter; timestamps and the token
clock are explicit natural-number parameters (seconds).
-/

/-- A stored user row, after the Prisma `User` model (`id` auto-increment,
unique `email`, bcrypt hash in `password`, optional `name` and `avatar`,
`isActive` defaulting to true, `createdAt`/`updatedAt` timestamps). -/
structure User where
  id : Nat
  email : String
  password : String
  name : Option String
  avatar : Option String
  isActive : Bool
  createdAt : Nat
  updatedAt : Nat
deriving DecidableEq, Repr

/-- A user record with the `password` field removed, as produced by
`sanitizeUser` in `utils/auth.js`. -/
structure SanitizedUser where
  id : Nat
  email : String
  name : Option String
  avatar : Option String
  isActive : Bool
  createdAt : Nat
  updatedAt : Nat
deriving DecidableEq, Repr

/-- `sanitizeUser` from `utils/auth.js`: destructure `password` away and keep
every other field. -/
def sanitizeUser (u : User) : SanitizedUser :=
  ⟨u.id, u.email, u.name, u.avatar, u.isActive, u.createdAt, u.updatedAt⟩

/-- The relational store: the `users` table plus the auto-increment counter
for `id`. -/
structure Store where
  users : List User
  nextId : Nat
deriving DecidableEq, Repr

/-- `prisma.user.findUnique` with a `where: email` clause. -/
def findByEmail (s : Store) (e : String) : Option User :=
  s.users.find? fun u => u.email == e

/-- `prisma.user.findUnique` with a `where: id` clause. -/
def findById (s : Store) (i : Nat) : Option User :=
  s.users.find? fun u => u.id == i

/-- `prisma.user.update` with a `where: id` clause: replace the row with the
given id. -/
def setUser (l : List User) (i : Nat) (u' : User) : List User :=
  l.map fun v => if v.id == i then u' else v

/-- Modelled from the spec: the Credential Hasher of section 4.1 (the bcryptjs
library behind `hashPassword`/`comparePassword` in `utils/auth.js` is an
external dependency, not part of the sources).  `hashPassword` is a one-way
transform and `comparePassword plain hashed` holds exactly when `hashed` is
the hash of `plain`. -/
def hashPassword (password : String) : String :=
  "bcrypt12$" ++ password

/-- Modelled from the spec: the verify half of the Credential Hasher of
section 4.1 (`bcrypt.compare` in `utils/auth.js`); returns false on any
mismatch and never throws for wrong credentials. -/
def comparePassword (plain hashed : String) : Bool :=
  hashPassword plain == hashed

/-- The fallback signing key hard-coded in `utils/auth.js` (used when no
`JWT_SECRET` environment variable is configured). -/
def JWT_SECRET : String := "your-super-secret-jwt-key-change-in-production"

/-- The default token lifetime of `generateToken` in `utils/auth.js`
(`expiresIn = '7d'`), in seconds. -/
def sevenDays : Nat := 7 * 24 * 60 * 60

/-- The claims carried by a session token: `userId` and `email`, as signed by
the route handlers in `routes/auth.js`. -/
structure TokenPayload where
  userId : Nat
  email : String
deriving DecidableEq, Repr

/-- Modelled from the spec: a signed token of the Session Token Codec of
section 4.2 (the jsonwebtoken library behind `generateToken`/`verifyToken` in
`utils/auth.js` is an external dependency, not part of the sources).  A token
records its payload, issue and expiry instants, and the key it was signed
with. -/
structure Token where
  payload : TokenPayload
  iat : Nat
  exp : Nat
  secret : String
deriving DecidableEq, Repr

/-- The two verification failures of the Session Token Codec (section 4.2 of
the spec; `jwt.verify` raises `TokenExpiredError` or `JsonWebTokenError`). -/
inductive TokenError where
  | TokenExpiredError
  | JsonWebTokenError
deriving DecidableEq, Repr

/-- `generateToken` from `utils/auth.js` at its default expiry: sign the
payload with `JWT_SECRET`, expiring `sevenDays` after issuance. -/
def generateToken (p : TokenPayload) (now : Nat) : Token :=
  ⟨p, now, now + sevenDays, JWT_SECRET⟩

/-- Modelled from the spec: `verifyToken` from `utils/auth.js` (section 4.2:
verification fails with `TokenExpiredError` when `now > expiresAt`, with
`TokenInvalidError` when the signature is wrong, and otherwise returns the
payload). -/
def verifyToken (t : Token) (now : Nat) : Except TokenError TokenPayload :=
  if t.secret == JWT_SECRET then
    if t.exp < now then .error .TokenExpiredError else .ok t.payload
  else .error .JsonWebTokenError

/-- JavaScript truthiness of an optional string field of a request body:
absent (`undefined`/`null`) and the empty string are falsy. -/
def isFalsy : Option String → Bool
  | none => true
  | some s => s == ""

/-- JavaScript `toLowerCase`, character by character. -/
def toLowerStr (s : String) : String :=
  ⟨s.data.map Char.toLower⟩

/-- JavaScript `trim`: drop whitespace from both ends. -/
def trimStr (s : String) : String :=
  ⟨((s.data.dropWhile Char.isWhitespace).reverse.dropWhile Char.isWhitespace).reverse⟩

/-- JavaScript `replace` with a plain-string pattern: substitute only the
first occurrence. -/
def replaceFirstChars : List Char → List Char → List Char → List Char
  | [], _, _ => []
  | c :: cs, pat, rep =>
      if pat.isPrefixOf (c :: cs) then rep ++ (c :: cs).drop pat.length
      else c :: replaceFirstChars cs pat rep

/-- String wrapper of `replaceFirstChars`. -/
def replaceFirst (s pat rep : String) : String :=
  ⟨replaceFirstChars s.data pat.data rep.data⟩

/-- `isValidEmail` from `utils/auth.js`: the regular expression
`/^[^\s@]+@[^\s@]+\.[^\s@]+$/` — exactly one at-sign, no whitespace, a
non-empty local part, and a domain containing a dot that is neither its first
nor its last character.  The match splits the string at its first at-sign,
requires the rest to carry no further at-sign, and checks the dot in the
interior of the domain. -/
def isValidEmail (s : String) : Bool :=
  let cs := s.data
  let l := cs.takeWhile (fun c => c != '@')
  match cs.drop l.length with
  | [] => false
  | _ :: d =>
      !l.isEmpty && !d.isEmpty &&
      cs.all (fun c => !c.isWhitespace) &&
      d.all (fun c => c != '@') &&
      ((d.drop 1).dropLast).contains '.'

/-- The result record built by `validatePassword` in `utils/auth.js`. -/
structure PasswordValidation where
  isValid : Bool
  errors : List String
deriving DecidableEq, Repr

/-- `validatePassword` from `utils/auth.js`: a falsy password is only
"required"; otherwise the length bounds 6 and 100 are checked and every
violated bound contributes its message. -/
def validatePassword (password : Option String) : PasswordValidation :=
  if isFalsy password then ⟨false, ["Password is required"]⟩
  else
    let p := password.getD ""
    let errs :=
      (if p.length < 6 then ["Password must be at least 6 characters long"] else [])
      ++ (if p.length > 100 then ["Password must be less than 100 characters"] else [])
    ⟨errs.isEmpty, errs⟩

/-- The email checks of `validateRegistration` and `validateLogin` in
`middleware/validation.js`: required, then format-checked. -/
def regEmailErrors (email : Option String) : List String :=
  if isFalsy email then ["Email is required"]
  else if !isValidEmail (email.getD "") then ["Please provide a valid email address"]
  else []

/-- The name checks of `validateRegistration` in `middleware/validation.js`:
both guards fire only on a truthy `name` (so a present empty string is
skipped), one rejecting a blank trim, one rejecting length above 50. -/
def regNameErrors : Option String → List String
  | none => []
  | some n =>
      (if n != "" then
        (if (trimStr n).length = 0 then ["Name must be a non-empty string"] else [])
       else [])
      ++ (if n != "" then
            (if n.length > 50 then ["Name must be less than 50 characters"] else [])
          else [])

/-- A register request body `{email, password, name}`; each field may be
absent. -/
structure RegisterReq where
  email : Option String
  password : Option String
  name : Option String
deriving DecidableEq, Repr

/-- `validateRegistration` from `middleware/validation.js`: accumulate the
email, password and name errors, in that order. -/
def validateRegistration (r : RegisterReq) : List String :=
  regEmailErrors r.email ++ (validatePassword r.password).errors ++ regNameErrors r.name

/-- A login request body `{email, password}`. -/
structure LoginReq where
  email : Option String
  password : Option String
deriving DecidableEq, Repr

/-- `validateLogin` from `middleware/validation.js`. -/
def validateLogin (r : LoginReq) : List String :=
  regEmailErrors r.email
  ++ (if isFalsy r.password then ["Password is required"] else [])

/-- A profile-update request body `{name, avatar}`; `some` means the field
was present (even as an empty string), matching the `!== undefined` checks. -/
structure ProfileUpdateReq where
  name : Option String
  avatar : Option String
deriving DecidableEq, Repr

/-- `validateProfileUpdate` from `middleware/validation.js`: a present name
must have a non-blank trim and length at most 50, a present avatar must be at
most 19000000 characters. -/
def validateProfileUpdate (r : ProfileUpdateReq) : List String :=
  (match r.name with
   | none => []
   | some n =>
       if (trimStr n).length = 0 then ["Name cannot be empty"]
       else if n.length > 50 then ["Name must be less than 50 characters"]
       else [])
  ++ (match r.avatar with
      | none => []
      | some a =>
          if a.length > 19000000 then ["Avatar data is too large (max 19MB)"] else [])

/-- A change-password request body `{currentPassword, newPassword}`. -/
structure ChangePasswordReq where
  currentPassword : Option String
  newPassword : Option String
deriving DecidableEq, Repr

/-- `validateChangePassword` from `middleware/validation.js`: current password
required, new password run through `validatePassword` with "Password" renamed
to "New password" in each message, and the two passwords must differ
(JavaScript `===` on the raw body fields, which the `Option` equality
mirrors). -/
def validateChangePassword (r : ChangePasswordReq) : List String :=
  (if isFalsy r.currentPassword then ["Current password is required"] else [])
  ++ (validatePassword r.newPassword).errors.map
       (fun e => replaceFirst e "Password" "New password")
  ++ (if r.currentPassword == r.newPassword then
        ["New password must be different from current password"]
      else [])

/-- The flat JSON response shape used by the API: an HTTP status plus the
body fields that the handlers in `routes/auth.js` actually emit. -/
structure Response where
  status : Nat
  success : Bool := false
  error : Option String := none
  message : Option String := none
  details : Option (List String) := none
  user : Option SanitizedUser := none
  token : Option Token := none
deriving DecidableEq, Repr

/-- The 400 body sent by every validator in `middleware/validation.js`. -/
def validationFailed (d : List String) : Response :=
  {status := 400, error := some "Validation failed", details := some d}

/-- The 409 body of the register route when the email is taken. -/
def userAlreadyExists : Response :=
  {status := 409, error := some "User already exists",
   message := some "A user with this email address already exists"}

/-- The uniform 401 body of the login route for an unknown email or a wrong
password. -/
def invalidCredentials : Response :=
  {status := 401, error := some "Invalid credentials",
   message := some "Email or password is incorrect"}

/-- The 401 body of the login route for a deactivated account. -/
def accountDeactivated : Response :=
  {status := 401, error := some "Account deactivated",
   message := some "Your account has been deactivated. Please contact support."}

/-- The 404 body of the me and change-password routes when the token subject
no longer exists. -/
def userNotFound : Response :=
  {status := 404, error := some "User not found",
   message := some "Your account could not be found"}

/-- The 400 body of the change-password route when the current password does
not verify. -/
def invalidCurrentPassword : Response :=
  {status := 400, error := some "Invalid current password",
   message := some "The current password you entered is incorrect"}

/-- The 500 body of the profile route catch-block. -/
def profileUpdateError : Response :=
  {status := 500, error := some "Internal server error",
   message := some "An error occurred while updating your profile"}

/-- The email normalisation applied by the validators after a pass:
`email.toLowerCase().trim()`. -/
def normEmail (email : Option String) : String :=
  trimStr (toLowerStr (email.getD ""))

/-- The name stored by the register flow: the sanitisation step of
`validateRegistration` trims a truthy name, and the handler default
`name: name || null` stores null for a falsy one. -/
def regName : Option String → Option String
  | some n => if n != "" then some (trimStr n) else none
  | none => none

/-- The register route (`router.post` on register in `routes/auth.js`,
composed with `validateRegistration`): on a validation pass, normalise the
body, reject a taken email with 409, otherwise create the user row with a
hashed password, sign a token over its id and email, and answer 201 with the
sanitized user and the token. -/
def register (s : Store) (r : RegisterReq) (now : Nat) : Response × Store :=
  let errors := validateRegistration r
  if errors.isEmpty then
    let email := normEmail r.email
    let name := regName r.name
    match findByEmail s email with
    | some _ => (userAlreadyExists, s)
    | none =>
        let user : User :=
          ⟨s.nextId, email, hashPassword (r.password.getD ""), name, none, true, now, now⟩
        ({status := 201, success := true,
          message := some "User registered successfully",
          user := some (sanitizeUser user),
          token := some (generateToken ⟨user.id, user.email⟩ now)},
         ⟨s.users ++ [user], s.nextId + 1⟩)
  else (validationFailed errors, s)

/-- The login route (`router.post` on login in `routes/auth.js`, composed
with `validateLogin`): unknown email and wrong password both yield the
uniform `invalidCredentials` body, a deactivated account is rejected before
the password is checked, and a successful login answers 200 with the
sanitized user and a fresh token.  The store is not modified. -/
def login (s : Store) (r : LoginReq) (now : Nat) : Response :=
  let errors := validateLogin r
  if errors.isEmpty then
    let email := normEmail r.email
    match findByEmail s email with
    | none => invalidCredentials
    | some u =>
        if !u.isActive then accountDeactivated
        else if !comparePassword (r.password.getD "") u.password then invalidCredentials
        else
          {status := 200, success := true, message := some "Login successful",
           user := some (sanitizeUser u),
           token := some (generateToken ⟨u.id, u.email⟩ now)}
  else validationFailed errors

/-- Modelled from the spec: the `authenticateToken` middleware
(`middleware/auth.js` is referenced by every protected route but is not among
the provided sources).  Per sections 4.5 and 6 of the spec it verifies the
bearer token with the Session Token Codec and exposes the decoded payload as
the request identity, answering 401 for a missing or invalid token and 403
for an expired one, without consulting the user store. -/
def authenticateToken (tok : Option Token) (now : Nat) : Except Response TokenPayload :=
  match tok with
  | none => .error {status := 401, error := some "Invalid token"}
  | some t =>
      match verifyToken t now with
      | .error .JsonWebTokenError => .error {status := 401, error := some "Invalid token"}
      | .error .TokenExpiredError => .error {status := 403, error := some "Token expired"}
      | .ok p => .ok p

/-- The row written by the profile route: the sanitisation step of
`validateProfileUpdate` trims each present field, the handler spreads only
the supplied fields into the update, and the Prisma `@updatedAt` attribute
refreshes `updatedAt`. -/
def applyProfileUpdate (u : User) (r : ProfileUpdateReq) (now : Nat) : User :=
  {u with
    name := match r.name with | some n => some (trimStr n) | none => u.name,
    avatar := match r.avatar with | some a => some (trimStr a) | none => u.avatar,
    updatedAt := now}

/-- The profile route (`router.put` on profile in `routes/auth.js`, composed
with `authenticateToken` and `validateProfileUpdate`): spread only the
supplied fields into the update, so an absent field keeps its stored value;
the stored `updatedAt` is refreshed by the Prisma `@updatedAt` attribute.  A
vanished subject row makes the update throw, landing in the catch-block
500. -/
def updateProfile (s : Store) (tok : Option Token) (r : ProfileUpdateReq) (now : Nat) :
    Response × Store :=
  match authenticateToken tok now with
  | .error resp => (resp, s)
  | .ok p =>
      let errors := validateProfileUpdate r
      if errors.isEmpty then
        match findById s p.userId with
        | none => (profileUpdateError, s)
        | some u =>
            let u' := applyProfileUpdate u r now
            ({status := 200, success := true,
              message := some "Profile updated successfully",
              user := some (sanitizeUser u')},
             ⟨setUser s.users u.id u', s.nextId⟩)
      else (validationFailed errors, s)

/-- The change-password route (`router.put` on change-password in
`routes/auth.js`, composed with `authenticateToken` and
`validateChangePassword`): after validation, the subject row is loaded, the
current password must verify against the stored hash (400 otherwise), and the
new password is hashed and stored. -/
def changePassword (s : Store) (tok : Option Token) (r : ChangePasswordReq) (now : Nat) :
    Response × Store :=
  match authenticateToken tok now with
  | .error resp => (resp, s)
  | .ok p =>
      let errors := validateChangePassword r
      if errors.isEmpty then
        match findById s p.userId with
        | none => (userNotFound, s)
        | some u =>
            if !comparePassword (r.currentPassword.getD "") u.password then
              (invalidCurrentPassword, s)
            else
              let u' : User :=
                {u with password := hashPassword (r.newPassword.getD ""), updatedAt := now}
              ({status := 200, success := true,
                message := some "Password changed successfully"},
               ⟨setUser s.users u.id u', s.nextId⟩)
      else (validationFailed errors, s)

/-- The refresh route (`router.post` on refresh in `routes/auth.js`, composed
with `authenticateToken`): sign a new token over the `userId` and `email`
claims of the presented token.  The handler never touches the store, which
the unused `s` argument makes explicit. -/
def refresh (s : Store) (tok : Option Token) (now : Nat) : Response :=
  match authenticateToken tok now with
  | .error resp => resp
  | .ok p =>
      {status := 200, success := true,
       message := some "Token refreshed successfully",
       token := some (generateToken ⟨p.userId, p.email⟩ now)}

/-! Concrete fixtures used to instantiate the theorems below. -/

/-- An empty store, as after a fresh schema push. -/
def emptyStore : Store := ⟨[], 1⟩

/-- An active registered user with password `secret1`. -/
def userA : User := ⟨1, "a@b.co", hashPassword "secret1", none, none, true, 0, 0⟩

/-- A deactivated user with password `secret2`. -/
def userInactiveB : User := ⟨2, "b@b.co", hashPassword "secret2", none, none, false, 0, 0⟩

/-- A user with a name and an avatar set, for the frame-condition claims. -/
def userC : User := ⟨1, "a@b.co", hashPassword "secret1", some "Bob", some "pic", true, 0, 0⟩

/-- A store holding `userA` and `userInactiveB`. -/
def storeAB : Store := ⟨[userA, userInactiveB], 3⟩

/-- A store holding only `userC`. -/
def storeC : Store := ⟨[userC], 2⟩

/-- A token for `userA`, issued at instant 0. -/
def tokA : Token := generateToken ⟨1, "a@b.co"⟩ 0

/-- Updating one row by id commutes with `find?` by id: if `u` is the row
found for `i`, then after replacing the row with id `u.id` by a row `u'`
carrying the same id, the row found for `i` is `u'`. -/
theorem find?_setUser (l : List User) (i : Nat) (u u' : User)
    (h : l.find? (fun v => v.id == i) = some u) (hid : u'.id = u.id) :
    (setUser l u.id u').find? (fun v => v.id == i) = some u' := by
  induction l with
  | nil => simp at h
  | cons a l ih =>
      by_cases ha : a.id = i
      · have hfa : (a :: l).find? (fun v => v.id == i) = some a :=
          List.find?_cons_of_pos _ (by simp [ha])
        rw [hfa] at h
        obtain rfl := Option.some.inj h
        have hpos : (u'.id == i) = true := by simp [hid, ha]
        have hstep : setUser (a :: l) a.id u' = u' :: setUser l a.id u' := by
          simp [setUser]
        rw [hstep]
        exact List.find?_cons_of_pos _ hpos
      · have hfa : (a :: l).find? (fun v => v.id == i) = l.find? (fun v => v.id == i) :=
          List.find?_cons_of_neg _ (by simp [ha])
        rw [hfa] at h
        have hui : u.id = i := by
          have := List.find?_some h
          simpa using this
        have hstep : setUser (a :: l) u.id u' = a :: setUser l u.id u' := by
          simp [setUser, hui, ha]
        rw [hstep, List.find?_cons_of_neg _ (by simpa using ha)]
        exact ih h

/-- C4: a token issued at `iss` with the default 7-day expiry fails
verification with `TokenExpiredError` one second after `iss + 7days` and
verifies to its own payload one second before `iss + 7days`. -/
theorem token_expiry_boundary (p : TokenPayload) (iss : Nat) :
    verifyToken (generateToken p iss) (iss + sevenDays + 1)
      = Except.error TokenError.TokenExpiredError ∧
    verifyToken (generateToken p iss) (iss + sevenDays - 1) = Except.ok p := by
  constructor <;> simp [verifyToken, generateToken, sevenDays]

/-- C10 counterexample: a register request whose `name` field is present but
equal to the empty string passes validation and is answered 201, not 400,
because both name guards in `validateRegistration` fire only on a truthy
name. -/
theorem register_accepts_present_empty_name :
    validateRegistration ⟨some "a@b.co", some "secret1", some ""⟩ = [] ∧
    (register emptyStore ⟨some "a@b.co", some "secret1", some ""⟩ 0).1.status = 201 ∧
    (register emptyStore ⟨some "a@b.co", some "secret1", some ""⟩ 0).1.status ≠ 400 := by
  refine ⟨rfl, rfl, by decide⟩

/-- C3: a validated login with an unknown email and a validated login with a
known active user but a non-verifying password produce the very same 401
response body `invalidCredentials`, so the outcome does not reveal whether
the account exists. -/
theorem login_unknown_and_wrong_password_identical (s : Store) (r1 r2 : LoginReq)
    (n1 n2 : Nat) (u : User)
    (hv1 : validateLogin r1 = []) (hv2 : validateLogin r2 = [])
    (h1 : findByEmail s (normEmail r1.email) = none)
    (h2 : findByEmail s (normEmail r2.email) = some u)
    (hact : u.isActive = true)
    (hpw : comparePassword (r2.password.getD "") u.password = false) :
    login s r1 n1 = invalidCredentials ∧ login s r2 n2 = invalidCredentials ∧
    invalidCredentials.status = 401 := by
  refine ⟨?_, ?_, rfl⟩
  · simp [login, hv1, h1]
  · simp [login, hv2, h2, hact, hpw]

/-- Witness for C3 at a concrete store: unknown email `zz@b.co` versus the
stored `a@b.co` with a wrong password. -/
theorem login_unknown_and_wrong_password_identical_witness :
    login storeAB ⟨some "zz@b.co", some "secret1"⟩ 5 = invalidCredentials ∧
    login storeAB ⟨some "a@b.co", some "wrong1"⟩ 5 = invalidCredentials ∧
    invalidCredentials.status = 401 :=
  login_unknown_and_wrong_password_identical storeAB
    ⟨some "zz@b.co", some "secret1"⟩ ⟨some "a@b.co", some "wrong1"⟩ 5 5 userA
    rfl rfl rfl rfl rfl rfl

/-- C8: a validated login whose email resolves to a deactivated user is
answered with the distinct 401 `accountDeactivated` body, whatever password
was supplied (the route checks `isActive` before the password), and that body
differs from the uniform `invalidCredentials` body. -/
theorem login_inactive_distinct_message (s : Store) (r : LoginReq) (n : Nat) (u : User)
    (hv : validateLogin r = [])
    (hfind : findByEmail s (normEmail r.email) = some u)
    (hinact : u.isActive = false) :
    login s r n = accountDeactivated ∧ accountDeactivated.status = 401 ∧
    accountDeactivated.error ≠ invalidCredentials.error ∧
    accountDeactivated.message ≠ invalidCredentials.message := by
  refine ⟨?_, rfl, by decide, by decide⟩
  simp [login, hv, hfind, hinact]

/-- Witness for C8: logging into the deactivated `userInactiveB` account with
its correct password `secret2`. -/
theorem login_inactive_distinct_message_witness :
    login storeAB ⟨some "b@b.co", some "secret2"⟩ 5 = accountDeactivated ∧
    accountDeactivated.status = 401 ∧
    accountDeactivated.error ≠ invalidCredentials.error ∧
    accountDeactivated.message ≠ invalidCredentials.message :=
  login_inactive_distinct_message storeAB ⟨some "b@b.co", some "secret2"⟩ 5 userInactiveB
    rfl rfl rfl

/-- C1: a register request that passes validation and whose normalised email
is not yet stored appends exactly one new user row, answers 201 with the
sanitized new user and a token, and that token verifies at issuance time to a
payload whose `userId` equals the created user id. -/
theorem register_new_email_creates_user_and_token (s : Store) (r : RegisterReq) (now : Nat)
    (hval : validateRegistration r = [])
    (hnew : findByEmail s (normEmail r.email) = none) :
    ∃ u : User, ∃ tok : Token,
      (register s r now).2.users = s.users ++ [u] ∧
      (register s r now).1.status = 201 ∧
      (register s r now).1.user = some (sanitizeUser u) ∧
      (register s r now).1.token = some tok ∧
      ∃ p : TokenPayload, verifyToken tok now = Except.ok p ∧ p.userId = u.id := by
  refine ⟨⟨s.nextId, normEmail r.email, hashPassword (r.password.getD ""),
           regName r.name, none, true, now, now⟩,
         generateToken ⟨s.nextId, normEmail r.email⟩ now,
         ?_, ?_, ?_, ?_, ⟨s.nextId, normEmail r.email⟩, ?_, rfl⟩ <;>
    simp [register, hval, hnew, verifyToken, generateToken]

/-- Witness for C1: registering `A@b.co` (normalised to `a@b.co`) in the
empty store. -/
theorem register_new_email_creates_user_and_token_witness :
    ∃ u : User, ∃ tok : Token,
      (register emptyStore ⟨some "A@b.co", some "secret1", none⟩ 0).2.users
        = emptyStore.users ++ [u] ∧
      (register emptyStore ⟨some "A@b.co", some "secret1", none⟩ 0).1.status = 201 ∧
      (register emptyStore ⟨some "A@b.co", some "secret1", none⟩ 0).1.user
        = some (sanitizeUser u) ∧
      (register emptyStore ⟨some "A@b.co", some "secret1", none⟩ 0).1.token = some tok ∧
      ∃ p : TokenPayload, verifyToken tok 0 = Except.ok p ∧ p.userId = u.id :=
  register_new_email_creates_user_and_token emptyStore
    ⟨some "A@b.co", some "secret1", none⟩ 0 rfl rfl

/-- C2: a register request that passes validation but whose normalised email
is already stored is answered with the 409 `userAlreadyExists` body and the
store is returned unchanged, so the existing row keeps all of its fields. -/
theorem register_duplicate_email_conflict (s : Store) (r : RegisterReq) (now : Nat) (u : User)
    (hval : validateRegistration r = [])
    (hex : findByEmail s (normEmail r.email) = some u) :
    (register s r now).1 = userAlreadyExists ∧
    (register s r now).1.status = 409 ∧
    (register s r now).2 = s := by
  refine ⟨?_, ?_, ?_⟩ <;> simp [register, hval, hex, userAlreadyExists]

/-- Witness for C2: registering `A@b.co` again while `userA` already owns
`a@b.co`, hitting the case-insensitive normalisation. -/
theorem register_duplicate_email_conflict_witness :
    (register storeAB ⟨some "A@b.co", some "other-secret", none⟩ 7).1 = userAlreadyExists ∧
    (register storeAB ⟨some "A@b.co", some "other-secret", none⟩ 7).1.status = 409 ∧
    (register storeAB ⟨some "A@b.co", some "other-secret", none⟩ 7).2 = storeAB :=
  register_duplicate_email_conflict storeAB
    ⟨some "A@b.co", some "other-secret", none⟩ 7 userA rfl rfl

/-- C5: an authenticated change-password request whose `newPassword` equals
`currentPassword` is rejected by validation with a 400 and the store is
returned unchanged, whether or not the current password verifies. -/
theorem change_password_equal_new_rejected (s : Store) (tok : Token) (r : ChangePasswordReq)
    (now : Nat) (p : TokenPayload)
    (hauth : verifyToken tok now = Except.ok p)
    (heq : r.currentPassword = r.newPassword) :
    (changePassword s (some tok) r now).1.status = 400 ∧
    (changePassword s (some tok) r now).2 = s := by
  have hne : (validateChangePassword r).isEmpty = false := by
    simp [validateChangePassword, heq]
  constructor <;> simp [changePassword, authenticateToken, hauth, hne, validationFailed]

/-- Witness for C5: `userA` asks to change `secret1` into `secret1` with a
valid token; the current password does verify against the stored hash, and
the request is still a 400 that leaves the store alone. -/
theorem change_password_equal_new_rejected_witness :
    (changePassword storeAB (some tokA) ⟨some "secret1", some "secret1"⟩ 5).1.status = 400 ∧
    (changePassword storeAB (some tokA) ⟨some "secret1", some "secret1"⟩ 5).2 = storeAB :=
  change_password_equal_new_rejected storeAB tokA ⟨some "secret1", some "secret1"⟩ 5
    ⟨1, "a@b.co"⟩ rfl rfl

/-- C7: a register request with a falsy email and a present password shorter
than 6 characters is answered with a single 400 whose `details` list carries
both the email error and the password-length error. -/
theorem registration_reports_all_violations (s : Store) (r : RegisterReq) (now : Nat)
    (pw : String)
    (hemail : isFalsy r.email = true)
    (hpw : r.password = some pw) (hne : pw ≠ "") (hlen : pw.length < 6) :
    (register s r now).1.status = 400 ∧
    (register s r now).1.error = some "Validation failed" ∧
    ∃ d, (register s r now).1.details = some d ∧
      "Email is required" ∈ d ∧
      "Password must be at least 6 characters long" ∈ d := by
  have h1 : regEmailErrors r.email = ["Email is required"] := by
    simp [regEmailErrors, hemail]
  have h2 : "Password must be at least 6 characters long"
      ∈ (validatePassword r.password).errors := by
    simp [validatePassword, hpw, isFalsy, hne, hlen]
  have hemp : (validateRegistration r).isEmpty = false := by
    simp [validateRegistration, h1]
  refine ⟨?_, ?_, validateRegistration r, ?_, ?_, ?_⟩ <;>
    simp [register, hemp, validationFailed, validateRegistration, h1, h2]

/-- Witness for C7: no email and the three-letter password `abc`. -/
theorem registration_reports_all_violations_witness :
    (register emptyStore ⟨none, some "abc", none⟩ 0).1.status = 400 ∧
    (register emptyStore ⟨none, some "abc", none⟩ 0).1.error = some "Validation failed" ∧
    ∃ d, (register emptyStore ⟨none, some "abc", none⟩ 0).1.details = some d ∧
      "Email is required" ∈ d ∧
      "Password must be at least 6 characters long" ∈ d :=
  registration_reports_all_violations emptyStore ⟨none, some "abc", none⟩ 0 "abc"
    rfl rfl (by decide) (by decide)

/-- C9: the refresh route computes its answer from the verified token alone:
the response is literally independent of the store state (so it succeeds even
on a store where the subject row was deleted or deactivated), and on a token
that verifies it is a 200 carrying a fresh token signed over the presented
token claims. -/
theorem refresh_ignores_store (s1 s2 : Store) (tok : Token) (now : Nat) (p : TokenPayload)
    (hauth : verifyToken tok now = Except.ok p) :
    refresh s1 (some tok) now = refresh s2 (some tok) now ∧
    (refresh s1 (some tok) now).status = 200 ∧
    (refresh s1 (some tok) now).token = some (generateToken ⟨p.userId, p.email⟩ now) := by
  refine ⟨rfl, ?_, ?_⟩ <;> simp [refresh, authenticateToken, hauth]

/-- Witness for C9: refreshing `tokA` gives the same 200 over the populated
store and over the empty store from which `userA` has vanished. -/
theorem refresh_ignores_store_witness :
    refresh storeAB (some tokA) 5 = refresh emptyStore (some tokA) 5 ∧
    (refresh storeAB (some tokA) 5).status = 200 ∧
    (refresh storeAB (some tokA) 5).token = some (generateToken ⟨1, "a@b.co"⟩ 5) :=
  refresh_ignores_store storeAB emptyStore tokA 5 ⟨1, "a@b.co"⟩ rfl

/-- C6: an authenticated, validated profile update stores a row in which an
absent `name` keeps the stored name, an absent `avatar` keeps the stored
avatar, the fields `id`, `email`, `password`, `isActive` and `createdAt` are
untouched, and `updatedAt` is strictly larger than before whenever the write
instant lies after the previous `updatedAt`. -/
theorem profile_update_frame (s : Store) (tok : Token) (r : ProfileUpdateReq) (now : Nat)
    (p : TokenPayload) (u : User)
    (hauth : verifyToken tok now = Except.ok p)
    (hval : validateProfileUpdate r = [])
    (hu : findById s p.userId = some u)
    (htime : u.updatedAt < now) :
    ∃ u' : User,
      findById (updateProfile s (some tok) r now).2 p.userId = some u' ∧
      (updateProfile s (some tok) r now).1.status = 200 ∧
      (r.name = none → u'.name = u.name) ∧
      (r.avatar = none → u'.avatar = u.avatar) ∧
      u'.id = u.id ∧ u'.email = u.email ∧ u'.password = u.password ∧
      u'.isActive = u.isActive ∧ u'.createdAt = u.createdAt ∧
      u.updatedAt < u'.updatedAt := by
  have hval' : (validateProfileUpdate r).isEmpty = true := by simp [hval]
  have h2 : (updateProfile s (some tok) r now).2
      = ⟨setUser s.users u.id (applyProfileUpdate u r now), s.nextId⟩ := by
    simp [updateProfile, authenticateToken, hauth, hval', hu]
  refine ⟨applyProfileUpdate u r now, ?_, ?_, ?_, ?_, rfl, rfl, rfl, rfl, rfl, ?_⟩
  · rw [h2]
    exact find?_setUser s.users p.userId u _ hu rfl
  · simp [updateProfile, authenticateToken, hauth, hval', hu]
  · intro hn; simp [applyProfileUpdate, hn]
  · intro hv; simp [applyProfileUpdate, hv]
  · simpa [applyProfileUpdate] using htime

/-- Witness for C6: `userC` (who has both a name and an avatar) updates only
the name; the avatar and every identity field survive and `updatedAt` moves
from 0 to 5. -/
theorem profile_update_frame_witness :
    ∃ u' : User,
      findById (updateProfile storeC (some tokA) ⟨some "Jane", none⟩ 5).2 1 = some u' ∧
      (updateProfile storeC (some tokA) ⟨some "Jane", none⟩ 5).1.status = 200 ∧
      ((some "Jane" : Option String) = none → u'.name = userC.name) ∧
      ((none : Option String) = none → u'.avatar = userC.avatar) ∧
      u'.id = userC.id ∧ u'.email = userC.email ∧ u'.password = userC.password ∧
      u'.isActive = userC.isActive ∧ u'.createdAt = userC.createdAt ∧
      userC.updatedAt < u'.updatedAt :=
  profile_update_frame storeC tokA ⟨some "Jane", none⟩ 5 ⟨1, "a@b.co"⟩ userC
    rfl rfl rfl (by decide)

/-- A string has length zero exactly when it is empty. -/
theorem str_length_eq_zero_iff (s : String) : s.length = 0 ↔ s = "" := by
  constructor
  · intro h
    cases s with
    | mk d =>
        have hd : d = [] := List.length_eq_zero.mp h
        subst hd; rfl
  · intro h; subst h; rfl

/-- The name component of registration validation is empty exactly for a
falsy name or a name whose trim is non-blank and whose length is at most
50. -/
theorem regNameErrors_eq_nil_iff (n : String) :
    regNameErrors (some n) = [] ↔ n = "" ∨ (trimStr n ≠ "" ∧ n.length ≤ 50) := by
  by_cases h0 : n = ""
  · subst h0; simp [regNameErrors]
  · have hb : (n != "") = true := by simp [h0]
    by_cases h1 : (trimStr n).length = 0
    · have ht : trimStr n = "" := (str_length_eq_zero_iff (trimStr n)).mp h1
      simp [regNameErrors, hb, h1, h0, ht]
    · by_cases h2 : n.length > 50
      · simp [regNameErrors, hb, h1, h2, h0]
      · have ht : trimStr n ≠ "" := fun hc =>
          h1 (by rw [hc]; rfl)
        simp [regNameErrors, hb, h1, h2, h0, ht]
        omega

/-- C10 amended: for a register request whose `name` field is present with
value `n` and whose email and password checks pass, validation succeeds if
and only if `n` is the empty string (treated like an absent name) or `n` has
a non-blank trim and at most 50 characters; whenever validation fails the
response is a 400. -/
theorem register_name_rule_amended (r : RegisterReq) (n : String) (s : Store) (now : Nat)
    (hn : r.name = some n)
    (hemail : regEmailErrors r.email = [])
    (hpw : (validatePassword r.password).errors = []) :
    (validateRegistration r = [] ↔ n = "" ∨ (trimStr n ≠ "" ∧ n.length ≤ 50)) ∧
    (validateRegistration r ≠ [] → (register s r now).1.status = 400) := by
  have hv : validateRegistration r = regNameErrors (some n) := by
    simp [validateRegistration, hemail, hpw, hn]
  constructor
  · rw [hv]; exact regNameErrors_eq_nil_iff n
  · intro hnz
    have hemp : (validateRegistration r).isEmpty = false := by
      rw [Bool.eq_false_iff]
      intro hTrue
      exact hnz (List.isEmpty_iff.mp hTrue)
    simp [register, hemp, validationFailed]

/-- Witness for C10 amended: the whitespace-only name of three blanks trims
to the empty string, so validation fails and registration answers 400. -/
theorem register_name_rule_amended_witness :
    (validateRegistration ⟨some "a@b.co", some "secret1", some "   "⟩ = []
      ↔ "   " = "" ∨ (trimStr "   " ≠ "" ∧ "   ".length ≤ 50)) ∧
    (validateRegistration ⟨some "a@b.co", some "secret1", some "   "⟩ ≠ [] →
      (register emptyStore ⟨some "a@b.co", some "secret1", some "   "⟩ 0).1.status = 400) :=
  register_name_rule_amended ⟨some "a@b.co", some "secret1", some "   "⟩ "   " emptyStore 0
    rfl rfl rfl
